import Mathlib

/-!
A formal model of `bot.py`, a small Telegram study bot.

The bot forwards user questions to a completion API, relays the answer,
and logs every answered question to a `chat_history` table.  Group
messages that mention the bot capture a pending question and present a
two-button destination choice (`group` / `dm`); a callback resolves it.
`/history` and `/progress` are read-only views over the log.

The model is a shallow embedding: each Python handler becomes a pure
function from its inputs (message text, chat type, the outcome of the
completion call, the outcome of the DB insert) and the current state
(the `chat_history` table as a list of rows in insertion order, plus the
per-user `user_data["group_question"]` slot) to a list of outbound
actions and the new state.  The completion call is modelled by an
`Option String` argument: `some reply` when the HTTP call succeeds and
the response parses to a reply, `none` for any failure (timeout,
transport error, malformed response) — the Python `try` block turns all
of these into the same `except` path.  `insertOk` models whether the
`INSERT` into sqlite succeeds; when it raises, no row is added and
control jumps to the same `except` path.
-/

namespace StudyBot

/-- One row of the `chat_history` table (`CREATE TABLE` in bot.py). -/
structure Record where
  user_id : Nat
  timestamp : String
  user_message : String
  bot_reply : String
deriving DecidableEq, Repr

/-- An outbound effect of a handler.
`replyMsg` is `reply_text` into the originating chat;
`promptMsg` is `reply_text` with an inline keyboard (button label,
callback data pairs); `dmMsg` is `bot.send_message(chat_id=...)`;
`ackCallback` is `query.answer()`. -/
inductive Action where
  | replyMsg (text : String)
  | promptMsg (text : String) (buttons : List (String × String))
  | dmMsg (chat_id : Nat) (text : String)
  | ackCallback
deriving DecidableEq, Repr

/-- The mutable state a handler touches: the `chat_history` table in
insertion order, and the invoking user `user_data["group_question"]`
slot (`none` when the key is absent). -/
structure BotState where
  store : List Record
  userData : Option String
deriving DecidableEq, Repr

/-- `BOT_USERNAME = "robotutor_bot"` (without `@`). -/
def BOT_USERNAME : String := "robotutor_bot"

/-- The Python method `str.strip` (for ASCII whitespace): drop
whitespace from both ends. -/
def stripChars (l : List Char) : List Char :=
  ((l.dropWhile Char.isWhitespace).reverse.dropWhile Char.isWhitespace).reverse

/-- `text.strip()` on a string. -/
def strip (s : String) : String :=
  ⟨stripChars s.data⟩

/-- The Python method `str.lower` (for ASCII letters): lower-case every
character. -/
def lower (s : String) : String :=
  ⟨s.data.map Char.toLower⟩

/-- `leadsWith pat s`: `pat` occurs at the very start of `s`. -/
def leadsWith : List Char → List Char → Bool
  | [], _ => true
  | _ :: _, [] => false
  | a :: as, b :: bs => a = b && leadsWith as bs

/-- `hasSub s pat`: `pat` occurs contiguously somewhere in `s`
(the Python expression `pat in s` on strings). -/
def hasSub : List Char → List Char → Bool
  | [], pat => pat.isEmpty
  | s@(_ :: rest), pat => leadsWith pat s || hasSub rest pat

/-- Substring containment on strings, modelling the Python `in`
operator. -/
def containsSub (s pat : String) : Bool :=
  hasSub s.data pat.data

/-- `handle_private_question` (bot.py lines 124-168).
Skips non-private chats; rejects empty (stripped) text; sends a
"Thinking..." interim message; then the `try` block: completion call,
DB insert, final answer — any failure inside lands in `except`, which
sends the fixed error text. -/
def handle_private_question (chatType : String) (user_id : Nat)
    (text : String) (now : String) (completion : Option String)
    (insertOk : Bool) (st : BotState) : List Action × BotState :=
  if chatType ≠ "private" then ([], st)
  else
    let question := strip text
    if question = "" then
      ([Action.replyMsg "🤔 Please send a valid question."], st)
    else
      match completion with
      | none =>
          ([Action.replyMsg "🤖 Thinking...",
            Action.replyMsg "❌ Error fetching answer."], st)
      | some reply =>
          if insertOk then
            ([Action.replyMsg "🤖 Thinking...",
              Action.replyMsg ("📬 Answer:\n\n" ++ reply)],
             { st with
                store := st.store ++ [⟨user_id, now, question, reply⟩] })
          else
            ([Action.replyMsg "🤖 Thinking...",
              Action.replyMsg "❌ Error fetching answer."], st)

/-- The display name used in the prompt: `@` plus the username when the
user has a non-empty username, the first name otherwise. -/
def mentionName (username : Option String) (firstName : String) : String :=
  match username with
  | some u => if u = "" then firstName else "@" ++ u
  | none => firstName

/-- `handle_group_mention` (bot.py lines 173-194).
Ignores updates without text; lower-cases the text; returns unless the
lowered text contains `BOT_USERNAME` or `"john"`; otherwise stores the
raw text as `user_data["group_question"]` and presents the two-button
destination prompt. -/
def handle_group_mention (username : Option String) (firstName : String)
    (text : Option String) (st : BotState) : List Action × BotState :=
  match text with
  | none => ([], st)
  | some t =>
      if t = "" then ([], st)
      else
        let user_mention := mentionName username firstName
        let lowered := lower t
        if ¬ containsSub lowered BOT_USERNAME ∧ ¬ containsSub lowered "john"
        then ([], st)
        else
          ([Action.promptMsg
              ("👋 Hey " ++ user_mention ++ "! Where should I send the answer?")
              [("📢 In Group", "group"), ("📬 In DM", "dm")]],
           { st with userData := some t })

/-- `answer_destination_callback` (bot.py lines 199-245).
Acknowledges the callback; reads `user_data.get("group_question")` —
a missing or falsy (empty) value yields the "No question found" reply;
otherwise the `try` block: completion call, DB insert, then delivery to
the group chat when `query.data == "group"` and to the user direct
channel otherwise.  The pending question slot is never written here. -/
def answer_destination_callback (user_id : Nat) (callbackData : String)
    (now : String) (completion : Option String) (insertOk : Bool)
    (st : BotState) : List Action × BotState :=
  let noQuestion :=
    ([Action.ackCallback,
      Action.replyMsg "⚠️ No question found. Try again."], st)
  match st.userData with
  | none => noQuestion
  | some question =>
      if question = "" then noQuestion
      else
        match completion with
        | none =>
            ([Action.ackCallback,
              Action.replyMsg "❌ Error fetching answer."], st)
        | some reply =>
            if insertOk then
              let st' :=
                { st with
                    store := st.store ++ [⟨user_id, now, question, reply⟩] }
              if callbackData = "group" then
                ([Action.ackCallback,
                  Action.replyMsg ("📢 Answer:\n" ++ reply)], st')
              else
                ([Action.ackCallback,
                  Action.dmMsg user_id ("📬 Here\x27s your answer:\n\n" ++ reply)],
                 st')
            else
              ([Action.ackCallback,
                Action.replyMsg "❌ Error fetching answer."], st)

/-- The relation that sqlite `ORDER BY timestamp DESC` sorts by: `a` comes
no later than `b` in the output when `b.timestamp ≤ a.timestamp`
(TEXT columns compare bytewise; on the character lists this is the
lexicographic order, which UTF-8 preserves). -/
def newestFirst (a b : Record) : Prop :=
  b.timestamp.data ≤ a.timestamp.data

instance : DecidableRel newestFirst := fun a b =>
  inferInstanceAs (Decidable (b.timestamp.data ≤ a.timestamp.data))

instance : IsTotal Record newestFirst :=
  ⟨fun a b => le_total b.timestamp.data a.timestamp.data⟩

instance : IsTrans Record newestFirst :=
  ⟨fun _ _ _ h1 h2 => le_trans h2 h1⟩

/-- `SELECT ... WHERE user_id = ? ORDER BY timestamp DESC LIMIT n`:
the rows of the user, newest first, at most `n` of them. -/
def query_recent (store : List Record) (uid : Nat) (n : Nat) :
    List Record :=
  (List.insertionSort newestFirst
    (store.filter (fun r => r.user_id == uid))).take n

/-- The Python method `str.split` for a one-character separator: the pieces
between occurrences of `sep`, always at least one (possibly empty)
piece. -/
def splitOnChar (sep : Char) : List Char → List (List Char)
  | [] => [[]]
  | c :: cs =>
      match splitOnChar sep cs with
      | [] => if c = sep then [[], []] else [[c]]
      | r :: rs =>
          if c = sep then [] :: r :: rs else (c :: r) :: rs

/-- One `/history` message: `f"🕓 *{t.split('T')[1][:5]}*\n👤 You: ..."`.
Stored timestamps are `datetime.isoformat()` strings, which always
contain a `T`; `getD 1 []` models indexing `[1]` in that in-range case,
and `take 5` is the `[:5]` slice. -/
def historyLine (r : Record) : String :=
  "🕓 *" ++ ⟨((splitOnChar 'T' r.timestamp.data).getD 1 []).take 5⟩
    ++ "*\n👤 You: " ++ r.user_message ++ "\n🤖 Bot: " ++ r.bot_reply

/-- `show_history` (bot.py lines 103-120): fetch the 10 most recent
rows (newest first) and send them in `reversed(rows)` order. -/
def show_history (user_id : Nat) (st : BotState) : List Action :=
  let rows := query_recent st.store user_id 10
  if rows = [] then
    [Action.replyMsg "No history found yet. Start chatting!"]
  else
    rows.reverse.map (fun r => Action.replyMsg (historyLine r))

/-- `SELECT user_message ... WHERE user_id = ? AND timestamp > ?`:
question texts of the rows of the user after `since`, in table order. -/
def query_since (store : List Record) (uid : Nat) (since : String) :
    List String :=
  (store.filter
    (fun r => r.user_id == uid && decide (since.data < r.timestamp.data))).map
    (fun r => r.user_message)

/-- Python `\w` on ASCII text: letters, digits, underscore. -/
def isWordChar (c : Char) : Bool :=
  c.isAlphanum || c == '_'

def isLowerAZ (c : Char) : Bool :=
  'a' ≤ c && c ≤ 'z'

/-- Splits a character list into its maximal runs of word characters;
`cur` is the reversed run being accumulated. -/
def runsAux : List Char → List Char → List (List Char)
  | cur, [] => if cur = [] then [] else [cur.reverse]
  | cur, c :: cs =>
      if isWordChar c then runsAux (c :: cur) cs
      else if cur = [] then runsAux [] cs
      else cur.reverse :: runsAux [] cs

/-- The findall of the word-boundary regex used by the progress
report, applied to the lowered message: a match is exactly a maximal
word-character run made up solely of lowercase letters a to z with
length at least 4 (the word-boundary anchors rule out runs touching
digits or underscores). -/
def topicWords (msg : String) : List String :=
  ((runsAux [] (lower msg).data).filter
    (fun run => run.all isLowerAZ && decide (4 ≤ run.length))).map
    (fun run => ⟨run⟩)

/-- The distinct elements of `kws` in first-occurrence order: the key
set of `Counter(kws)`, whose insertion order is first encounter. -/
def firstKeys : List String → List String
  | [] => []
  | w :: ws => w :: (firstKeys ws).filter (fun v => v != w)

/-- `Counter(kws).items()`: each distinct word with its multiplicity,
keys in first-occurrence order. -/
def countItems (kws : List String) : List (String × Nat) :=
  (firstKeys kws).map (fun w => (w, kws.count w))

/-- The total order `Counter.most_common` ranks by: larger count first,
ties broken by earlier first occurrence in `kws` (the Python sort is
stable and `Counter` iterates in insertion order). -/
def rankedBefore (kws : List String) (a b : String × Nat) : Prop :=
  b.2 < a.2 ∨ (a.2 = b.2 ∧ List.indexOf a.1 kws ≤ List.indexOf b.1 kws)

instance (kws : List String) : DecidableRel (rankedBefore kws) :=
  fun a b =>
    inferInstanceAs
      (Decidable (b.2 < a.2 ∨
        (a.2 = b.2 ∧ List.indexOf a.1 kws ≤ List.indexOf b.1 kws)))

instance (kws : List String) : IsTotal (String × Nat) (rankedBefore kws) :=
  ⟨fun a b => by
    rcases lt_trichotomy a.2 b.2 with h | h | h
    · exact Or.inr (Or.inl h)
    · rcases le_total (List.indexOf a.1 kws) (List.indexOf b.1 kws) with
        hi | hi
      · exact Or.inl (Or.inr ⟨h, hi⟩)
      · exact Or.inr (Or.inr ⟨h.symm, hi⟩)
    · exact Or.inl (Or.inl h)⟩

instance (kws : List String) : IsTrans (String × Nat) (rankedBefore kws) :=
  ⟨fun a b c hab hbc => by
    rcases hab with h1 | ⟨h1, h1i⟩ <;> rcases hbc with h2 | ⟨h2, h2i⟩
    · exact Or.inl (h2.trans h1)
    · exact Or.inl (h2 ▸ h1)
    · exact Or.inl (h1 ▸ h2)
    · exact Or.inr ⟨h1.trans h2, h1i.trans h2i⟩⟩

/-- `Counter(kws).most_common(n)`. -/
def most_common (n : Nat) (kws : List String) : List (String × Nat) :=
  (List.insertionSort (rankedBefore kws) (countItems kws)).take n

/-- The Python method `str.title` restricted to the words the report prints:
an all-lowercase-letter word gets its first letter upper-cased and the
rest kept. -/
def titleWord (w : String) : String :=
  match w.data with
  | [] => ""
  | c :: cs => ⟨c.toUpper :: cs⟩

/-- One `/progress` report line: bullet, the word in title case, the
count, and the word question with a plural s exactly when the count
exceeds 1. -/
def progressLine (w : String) (count : Nat) : String :=
  "• *" ++ titleWord w ++ "* – " ++ toString count ++ " question"
    ++ (if count > 1 then "s" else "") ++ "\n"

/-- `show_progress` (bot.py lines 68-98): questions of the last 7 days,
keyword extraction, `most_common(5)`, rendered report. -/
def show_progress (user_id : Nat) (seven_days_ago : String)
    (st : BotState) : List Action :=
  let rows := query_since st.store user_id seven_days_ago
  if rows = [] then
    [Action.replyMsg "😕 No progress to show yet. Start asking questions!"]
  else
    let topic_keywords := (rows.map topicWords).flatten
    let common := most_common 5 topic_keywords
    if common = [] then
      [Action.replyMsg
        "😅 Couldn\x27t detect topics, but you\x27re asking good questions!"]
    else
      [Action.replyMsg
        ((common.foldl (fun acc p => acc ++ progressLine p.1 p.2)
            "📊 *Your Study Progress (Last 7 Days)*\n\n")
          ++ "\n✅ Great work! Keep the streak alive.")]


/-! ### Substring containment is correct -/

theorem leadsWith_iff (pat s : List Char) :
    leadsWith pat s = true ↔ pat <+: s := by
  induction pat generalizing s with
  | nil => simp [leadsWith]
  | cons a as ih =>
    cases s with
    | nil => simp [leadsWith]
    | cons b bs => simp [leadsWith, List.cons_prefix_cons, ih]

theorem hasSub_iff (s pat : List Char) :
    hasSub s pat = true ↔ pat <:+: s := by
  induction s with
  | nil => simp [hasSub, List.infix_nil, List.isEmpty_iff]
  | cons c rest ih =>
    rw [hasSub]
    simp [leadsWith_iff, ih, List.infix_cons_iff]

theorem containsSub_iff (s pat : String) :
    containsSub s pat = true ↔ pat.data <:+: s.data :=
  hasSub_iff s.data pat.data

/-! ### Facts about the keyword counter -/

theorem mem_firstKeys_iff {w : String} :
    ∀ {l : List String}, w ∈ firstKeys l ↔ w ∈ l := by
  intro l
  induction l with
  | nil => simp [firstKeys]
  | cons x xs ih =>
    by_cases hwx : w = x <;>
      simp [firstKeys, List.mem_filter, hwx, ih]

theorem firstKeys_nodup : ∀ l : List String, (firstKeys l).Nodup := by
  intro l
  induction l with
  | nil => simp [firstKeys]
  | cons x xs ih =>
    rw [firstKeys]
    refine List.Nodup.cons ?_ (ih.filter _)
    intro hx
    have := (List.mem_filter.mp hx).2
    simp at this

theorem firstKeys_eq_nil {l : List String} : firstKeys l = [] ↔ l = [] := by
  cases l <;> simp [firstKeys]

theorem mem_countItems {kws : List String} {p : String × Nat}
    (h : p ∈ countItems kws) : p.2 = kws.count p.1 ∧ 0 < p.2 := by
  rw [countItems] at h
  obtain ⟨w, hw, rfl⟩ := List.mem_map.mp h
  exact ⟨rfl, List.count_pos_iff.mpr (mem_firstKeys_iff.mp hw)⟩

theorem most_common_eq_nil {kws : List String} :
    most_common 5 kws = [] ↔ kws = [] := by
  constructor
  · intro h
    have hl := congrArg List.length h
    rw [most_common, List.length_take, List.length_insertionSort] at hl
    simp only [countItems, List.length_map, List.length_nil] at hl
    have h0 : (firstKeys kws).length = 0 := by omega
    exact firstKeys_eq_nil.mp (List.eq_nil_of_length_eq_zero h0)
  · intro h
    subst h
    rfl

/-! ### Facts about the report rendering -/

theorem string_foldl_append (l : List String) : ∀ acc : String,
    l.foldl (· ++ ·) acc = acc ++ l.foldl (· ++ ·) "" := by
  induction l with
  | nil => intro acc; simp [String.append_empty]
  | cons s ss ih =>
    intro acc
    simp only [List.foldl]
    rw [ih (acc ++ s), ih ("" ++ s), String.empty_append, String.append_assoc]

theorem report_foldl : ∀ (l : List (String × Nat)) (acc : String),
    l.foldl (fun a p => a ++ progressLine p.1 p.2) acc
      = acc ++ (l.map fun p => progressLine p.1 p.2).foldl (· ++ ·) "" := by
  intro l
  induction l with
  | nil => intro acc; simp [String.append_empty]
  | cons p ps ih =>
    intro acc
    simp only [List.foldl, List.map]
    rw [ih, string_foldl_append (ps.map fun p => progressLine p.1 p.2)
      ("" ++ progressLine p.1 p.2), String.empty_append, String.append_assoc]

theorem plural_append (a : String) :
    ((a ++ " question") ++ "s") ++ "\n" = a ++ " questions\n" := by
  apply String.ext
  simp only [String.data_append]
  rw [List.append_assoc, List.append_assoc]
  congr 1

theorem singular_append (a : String) :
    ((a ++ " question") ++ "") ++ "\n" = a ++ " question\n" := by
  apply String.ext
  simp only [String.data_append]
  rw [List.append_assoc, List.append_assoc]
  congr 1

theorem progressLine_cases (w : String) (c : Nat) :
    (1 < c → progressLine w c
      = "• *" ++ titleWord w ++ "* – " ++ toString c ++ " questions\n") ∧
    (c ≤ 1 → progressLine w c
      = "• *" ++ titleWord w ++ "* – " ++ toString c ++ " question\n") := by
  constructor
  · intro h
    rw [progressLine, if_pos h, plural_append]
  · intro h
    rw [progressLine, if_neg (by omega), singular_append]

/-! ### Claim theorems -/

/-- C1: for both question flows, an Interaction Record is appended to
the log exactly when the completion call succeeds and parses: on any
completion failure the store is unchanged in both handlers, and on a
successful completion (with the insert succeeding) exactly one record
is appended. -/
theorem records_iff_completion_success (chatType : String) (user_id : Nat)
    (text now cb q : String) (insertOk : Bool) (st : BotState) :
    ((handle_private_question chatType user_id text now none insertOk st).2.store
       = st.store) ∧
    ((answer_destination_callback user_id cb now none insertOk st).2.store
       = st.store) ∧
    (∀ reply, chatType = "private" → strip text ≠ "" →
      (handle_private_question chatType user_id text now (some reply) true st).2.store
        = st.store ++ [⟨user_id, now, strip text, reply⟩]) ∧
    (∀ reply, st.userData = some q → q ≠ "" →
      (answer_destination_callback user_id cb now (some reply) true st).2.store
        = st.store ++ [⟨user_id, now, q, reply⟩]) := by
  obtain ⟨store, ud⟩ := st
  refine ⟨?_, ?_, ?_, ?_⟩
  · simp only [handle_private_question]
    split_ifs <;> rfl
  · simp only [answer_destination_callback]
    cases ud with
    | none => rfl
    | some q' => by_cases h : q' = "" <;> simp [h]
  · intro reply h1 h2
    simp [handle_private_question, h1, h2]
  · intro reply h1 h2
    simp only [answer_destination_callback]
    simp only [BotState.userData] at h1
    subst h1
    simp only [h2]
    simp
    split_ifs <;> rfl

/-- Witness for C1 at a concrete input. -/
theorem records_iff_completion_success_witness :
    (handle_private_question "private" 7 "what is gravity" "T1" (some "ans") true
        ⟨[], none⟩).2.store = [⟨7, "T1", "what is gravity", "ans"⟩] := by
  have h := (records_iff_completion_success "private" 7 "what is gravity" "T1" "dm"
    "why" true ⟨[], none⟩).2.2.1 "ans" rfl (by decide)
  simpa using h

/-- C2 counterexample: after a successful destination resolution the
pending question is NOT cleared, and a second callback from the same
user with no intervening mention is not the no-question error: it
resolves the same question again and appends a second record. -/
theorem pending_not_cleared_counterexample :
    ((answer_destination_callback 7 "group" "T1" (some "a1") true
        ⟨[], some "explain gravity"⟩).2.userData = some "explain gravity") ∧
    ((answer_destination_callback 7 "group" "T2" (some "a2") true
        (answer_destination_callback 7 "group" "T1" (some "a1") true
          ⟨[], some "explain gravity"⟩).2).1 ≠
      [Action.ackCallback, Action.replyMsg "⚠️ No question found. Try again."]) ∧
    ((answer_destination_callback 7 "group" "T2" (some "a2") true
        (answer_destination_callback 7 "group" "T1" (some "a1") true
          ⟨[], some "explain gravity"⟩).2).2.store.length = 2) := by
  refine ⟨rfl, ?_, rfl⟩
  decide

/-- C2 amended: the pending question survives a successful resolution
unchanged, so a subsequent callback from the same user re-resolves the
same question (appending another record) instead of finding no pending
question. -/
theorem pending_survives_resolution (user_id : Nat)
    (cb cb2 now now2 reply reply2 q : String) (st : BotState)
    (hq : st.userData = some q) (hne : q ≠ "") :
    ((answer_destination_callback user_id cb now (some reply) true st).2.userData
       = some q) ∧
    ((answer_destination_callback user_id cb2 now2 (some reply2) true
        (answer_destination_callback user_id cb now (some reply) true st).2).2.store
       = st.store ++ [⟨user_id, now, q, reply⟩] ++ [⟨user_id, now2, q, reply2⟩]) := by
  obtain ⟨store, ud⟩ := st
  simp only [BotState.userData] at hq
  subst hq
  constructor
  · simp only [answer_destination_callback]
    simp only [hne]
    simp
    split_ifs <;> rfl
  · simp only [answer_destination_callback]
    simp only [hne]
    simp
    split_ifs <;> simp [hne]

/-- Witness for the amended C2 at a concrete input. -/
theorem pending_survives_resolution_witness :
    (answer_destination_callback 7 "dm" "T1" (some "a1") true
        ⟨[], some "why sky"⟩).2.userData = some "why sky" :=
  (pending_survives_resolution 7 "dm" "group" "T1" "T2" "a1" "a2" "why sky"
    ⟨[], some "why sky"⟩ rfl (by decide)).1

/-- C3 counterexample: the completion succeeded but the insert failed;
the handler sends only the fixed completion-error text and the computed
reply never reaches the user. -/
theorem reply_lost_on_insert_failure_counterexample :
    (handle_private_question "private" 7 "what is gravity" "T1" (some "the answer")
        false ⟨[], none⟩
      = ([Action.replyMsg "🤖 Thinking...", Action.replyMsg "❌ Error fetching answer."],
         ⟨[], none⟩)) ∧
    (Action.replyMsg ("📬 Answer:\n\n" ++ "the answer") ∉
      (handle_private_question "private" 7 "what is gravity" "T1" (some "the answer")
        false ⟨[], none⟩).1) := by
  constructor
  · rfl
  · decide

/-- C3 amended: when the store append fails after a successful
completion, both handlers deliver only the fixed error message — the
computed reply is lost, no storage-specific error is shown, and no
record is appended. -/
theorem insert_failure_error_only (chatType : String) (user_id : Nat)
    (text now reply cb q : String) (st : BotState) :
    (chatType = "private" → strip text ≠ "" →
      handle_private_question chatType user_id text now (some reply) false st
        = ([Action.replyMsg "🤖 Thinking...", Action.replyMsg "❌ Error fetching answer."],
           st)) ∧
    (st.userData = some q → q ≠ "" →
      answer_destination_callback user_id cb now (some reply) false st
        = ([Action.ackCallback, Action.replyMsg "❌ Error fetching answer."], st)) := by
  obtain ⟨store, ud⟩ := st
  constructor
  · intro h1 h2
    simp [handle_private_question, h1, h2]
  · intro h1 h2
    simp only [BotState.userData] at h1
    subst h1
    simp [answer_destination_callback, h2]

/-- Witness for the amended C3 at a concrete input. -/
theorem insert_failure_error_only_witness :
    handle_private_question "private" 7 "what is gravity" "T1" (some "ans") false
        ⟨[], none⟩
      = ([Action.replyMsg "🤖 Thinking...", Action.replyMsg "❌ Error fetching answer."],
         ⟨[], none⟩) :=
  (insert_failure_error_only "private" 7 "what is gravity" "T1" "ans" "dm" "q"
    ⟨[], none⟩).1 rfl (by decide)

/-- C4 counterexample: in the private flow the stored `user_message` is
the stripped text, not the original message verbatim. -/
theorem verbatim_user_message_counterexample :
    ((handle_private_question "private" 7 " what is gravity " "T1" (some "ans") true
        ⟨[], none⟩).2.store.map Record.user_message = ["what is gravity"]) ∧
    "what is gravity" ≠ " what is gravity " := by
  constructor
  · rfl
  · decide

/-- C4 amended: every successfully answered question appends exactly
one record; in the private flow its `user_message` is the stripped
input text (verbatim exactly when the text has no surrounding
whitespace), and in the group flow it is the mention message text
verbatim. -/
theorem stored_user_message (user_id uid2 : Nat) (text now reply : String)
    (username : Option String) (firstName : String) (cb now2 reply2 : String)
    (st : BotState) :
    (strip text ≠ "" →
      (handle_private_question "private" user_id text now (some reply) true st).2.store
        = st.store ++ [⟨user_id, now, strip text, reply⟩]) ∧
    (text ≠ "" →
      (containsSub (lower text) BOT_USERNAME ∨ containsSub (lower text) "john") →
      (answer_destination_callback uid2 cb now2 (some reply2) true
          (handle_group_mention username firstName (some text) st).2).2.store
        = st.store ++ [⟨uid2, now2, text, reply2⟩]) := by
  obtain ⟨store, ud⟩ := st
  constructor
  · intro h2
    simp [handle_private_question, h2]
  · intro ht hm
    have hmention : ¬ (¬ containsSub (lower text) BOT_USERNAME
        ∧ ¬ containsSub (lower text) "john") := by
      rcases hm with h | h
      · exact fun hc => hc.1 h
      · exact fun hc => hc.2 h
    simp only [handle_group_mention, ht]
    simp only [if_neg ht, if_neg hmention]
    simp
    simp only [answer_destination_callback]
    simp only [ht]
    simp
    split_ifs <;> simp [ht]

/-- Witness for the amended C4 at a concrete input. -/
theorem stored_user_message_witness :
    (answer_destination_callback 9 "dm" "T2" (some "ans") true
        (handle_group_mention (some "alice") "Alice"
          (some "hey @robotutor_bot explain gravity") ⟨[], none⟩).2).2.store
      = [⟨9, "T2", "hey @robotutor_bot explain gravity", "ans"⟩] := by
  have h := (stored_user_message 1 9 "hey @robotutor_bot explain gravity" "T1" "r"
    (some "alice") "Alice" "dm" "T2" "ans" ⟨[], none⟩).2 (by decide) (Or.inl (by decide))
  simpa using h

/-- C5: a destination callback with no pending question replies with
the no-question message, leaves the store and the (absent) pending
state unchanged, and its outcome is independent of the completion and
insert parameters — no completion call is made. -/
theorem no_pending_callback_noop (user_id : Nat) (cb now : String)
    (completion : Option String) (insertOk : Bool) (st : BotState)
    (h : st.userData = none) :
    answer_destination_callback user_id cb now completion insertOk st
      = ([Action.ackCallback, Action.replyMsg "⚠️ No question found. Try again."], st) := by
  obtain ⟨store, ud⟩ := st
  simp only [BotState.userData] at h
  subst h
  rfl

/-- Witness for C5 at a concrete input. -/
theorem no_pending_callback_noop_witness :
    answer_destination_callback 3 "group" "T" (some "ans") true ⟨[], none⟩
      = ([Action.ackCallback, Action.replyMsg "⚠️ No question found. Try again."],
         ⟨[], none⟩) :=
  no_pending_callback_noop 3 "group" "T" (some "ans") true ⟨[], none⟩ rfl

/-- C6: resolving a pending question with a successful completion
delivers to the originating chat under tag `group` and to the invoking
user by direct message under tag `dm`; both persist exactly one
record. -/
theorem resolution_delivery (user_id : Nat) (now reply q : String) (st : BotState)
    (hq : st.userData = some q) (hne : q ≠ "") :
    (answer_destination_callback user_id "group" now (some reply) true st
       = ([Action.ackCallback, Action.replyMsg ("📢 Answer:\n" ++ reply)],
          ⟨st.store ++ [⟨user_id, now, q, reply⟩], st.userData⟩)) ∧
    (answer_destination_callback user_id "dm" now (some reply) true st
       = ([Action.ackCallback,
           Action.dmMsg user_id ("📬 Here\x27s your answer:\n\n" ++ reply)],
          ⟨st.store ++ [⟨user_id, now, q, reply⟩], st.userData⟩)) := by
  obtain ⟨store, ud⟩ := st
  simp only [BotState.userData] at hq
  subst hq
  constructor <;> simp [answer_destination_callback, hne]

/-- Witness for C6 at a concrete input. -/
theorem resolution_delivery_witness :
    answer_destination_callback 5 "group" "T" (some "ans") true ⟨[], some "why"⟩
      = ([Action.ackCallback, Action.replyMsg ("📢 Answer:\n" ++ "ans")],
         ⟨[⟨5, "T", "why", "ans"⟩], some "why"⟩) := by
  have h := (resolution_delivery 5 "T" "ans" "why" ⟨[], some "why"⟩ rfl (by decide)).1
  simpa using h

/-- C10: on a successful resolution the answer goes to the originating
chat exactly when the callback data equals "group"; every other value,
"dm" or otherwise, is delivered as a direct message to the invoking
user — the tag is never validated. -/
theorem callback_tag_routing (user_id : Nat) (cb now reply q : String)
    (st : BotState) (hq : st.userData = some q) (hne : q ≠ "") :
    answer_destination_callback user_id cb now (some reply) true st
      = ((if cb = "group"
          then [Action.ackCallback, Action.replyMsg ("📢 Answer:\n" ++ reply)]
          else [Action.ackCallback,
                Action.dmMsg user_id ("📬 Here\x27s your answer:\n\n" ++ reply)]),
         ⟨st.store ++ [⟨user_id, now, q, reply⟩], st.userData⟩) := by
  obtain ⟨store, ud⟩ := st
  simp only [BotState.userData] at hq
  subst hq
  simp only [answer_destination_callback, hne]
  simp
  split_ifs <;> simp [hne]

/-- Witness for C10 at a concrete input with an unexpected tag. -/
theorem callback_tag_routing_witness :
    answer_destination_callback 5 "blah" "T" (some "ans") true ⟨[], some "why"⟩
      = ([Action.ackCallback, Action.dmMsg 5 ("📬 Here\x27s your answer:\n\n" ++ "ans")],
         ⟨[⟨5, "T", "why", "ans"⟩], some "why"⟩) := by
  have h := callback_tag_routing 5 "blah" "T" "ans" "why" ⟨[], some "why"⟩ rfl (by decide)
  simpa using h

/-- C7: a group text message captures the pending question and presents
the two-button destination prompt exactly when its lower-cased text
contains the configured handle or the literal alias "john" as a
substring; otherwise the handler does nothing and the state is
unchanged. -/
theorem group_mention_capture (username : Option String) (firstName : String)
    (text : String) (st : BotState) :
    (((handle_group_mention username firstName (some text) st).2.userData = some text ∧
      (handle_group_mention username firstName (some text) st).1 =
        [Action.promptMsg
          ("👋 Hey " ++ mentionName username firstName ++ "! Where should I send the answer?")
          [("📢 In Group", "group"), ("📬 In DM", "dm")]])
      ↔ (BOT_USERNAME.data <:+: (lower text).data ∨ "john".data <:+: (lower text).data)) ∧
    (¬ (BOT_USERNAME.data <:+: (lower text).data ∨ "john".data <:+: (lower text).data) →
      handle_group_mention username firstName (some text) st = ([], st)) := by
  rw [← containsSub_iff, ← containsSub_iff]
  by_cases ht : text = ""
  · subst ht
    constructor
    · constructor
      · intro h
        exact absurd h.2 (by simp [handle_group_mention])
      · intro h
        exact absurd h (by decide)
    · intro _
      rfl
  · by_cases hm : containsSub (lower text) BOT_USERNAME = true
      ∨ containsSub (lower text) "john" = true
    · have hmention : ¬ (¬ containsSub (lower text) BOT_USERNAME
          ∧ ¬ containsSub (lower text) "john") := by
        rcases hm with h | h
        · exact fun hc => hc.1 h
        · exact fun hc => hc.2 h
      simp only [handle_group_mention, ht]
      simp only [if_neg ht, if_neg hmention]
      simp [hm]
    · have hmention : (¬ containsSub (lower text) BOT_USERNAME
          ∧ ¬ containsSub (lower text) "john") := by
        constructor
        · intro h; exact hm (Or.inl h)
        · intro h; exact hm (Or.inr h)
      simp only [handle_group_mention, ht]
      simp only [if_neg ht, if_pos hmention]
      simp [hm]

/-- Witness for C7: a capitalized mention triggers capture; an
unrelated message is ignored with no state change. -/
theorem group_mention_capture_witness :
    ((handle_group_mention (some "alice") "Alice"
        (some "Hey @RoboTutor_Bot what is rain") ⟨[], none⟩).2.userData
      = some "Hey @RoboTutor_Bot what is rain") ∧
    (handle_group_mention (some "alice") "Alice" (some "nothing to see")
        ⟨[], some "old"⟩
      = ([], ⟨[], some "old"⟩)) := by
  constructor
  · exact ((group_mention_capture (some "alice") "Alice"
      "Hey @RoboTutor_Bot what is rain" ⟨[], none⟩).1.mpr (Or.inl (by decide))).1
  · exact (group_mention_capture (some "alice") "Alice" "nothing to see"
      ⟨[], some "old"⟩).2 (by decide)

/-- C8: for a user with at least one stored record, `/history` renders
the retrieved rows in reverse, so the displayed order is oldest first
while the retrieval order is newest first; the retrieved rows are the
(at most) 10 most recent records of that user. -/
theorem history_renders_reverse (user_id : Nat) (st : BotState)
    (h : st.store.filter (fun r => r.user_id == user_id) ≠ []) :
    (show_history user_id st
      = (query_recent st.store user_id 10).reverse.map
          (fun r => Action.replyMsg (historyLine r))) ∧
    ((query_recent st.store user_id 10).length
      = min 10 (st.store.filter (fun r => r.user_id == user_id)).length) ∧
    (∀ r ∈ query_recent st.store user_id 10, r.user_id = user_id) ∧
    List.Pairwise (fun a b => b.timestamp.data ≤ a.timestamp.data)
      (query_recent st.store user_id 10) ∧
    List.Pairwise (fun a b => a.timestamp.data ≤ b.timestamp.data)
      (query_recent st.store user_id 10).reverse ∧
    (∀ a ∈ query_recent st.store user_id 10,
      ∀ b ∈ (List.insertionSort newestFirst
          (st.store.filter (fun r => r.user_id == user_id))).drop 10,
        b.timestamp.data ≤ a.timestamp.data) := by
  have hlen : (query_recent st.store user_id 10).length
      = min 10 (st.store.filter (fun r => r.user_id == user_id)).length := by
    simp [query_recent, List.length_take, List.length_insertionSort]
  have hsorted : List.Pairwise newestFirst
      (List.insertionSort newestFirst
        (st.store.filter (fun r => r.user_id == user_id))) :=
    List.sorted_insertionSort newestFirst _
  have hpw : List.Pairwise (fun a b => b.timestamp.data ≤ a.timestamp.data)
      (query_recent st.store user_id 10) :=
    hsorted.sublist (List.take_sublist _ _)
  have hne : query_recent st.store user_id 10 ≠ [] := by
    intro hnil
    rw [hnil] at hlen
    simp only [List.length_nil] at hlen
    have h0 : (st.store.filter (fun r => r.user_id == user_id)).length = 0 := by
      omega
    exact h (List.eq_nil_of_length_eq_zero h0)
  refine ⟨?_, hlen, ?_, hpw, ?_, ?_⟩
  · simp only [show_history]
    rw [if_neg hne]
  · intro r hr
    have hmem : r ∈ st.store.filter (fun r => r.user_id == user_id) := by
      have h1 := List.mem_of_mem_take hr
      rw [List.mem_insertionSort] at h1
      exact h1
    have := (List.mem_filter.mp hmem).2
    simpa using this
  · rw [List.pairwise_reverse]
    exact hpw
  · intro a ha b hb
    have hsplit := hsorted
    rw [← List.take_append_drop 10
      (List.insertionSort newestFirst
        (st.store.filter (fun r => r.user_id == user_id)))] at hsplit
    exact (List.pairwise_append.mp hsplit).2.2 a ha b hb

/-- Witness for C8: two stored records display oldest first. -/
theorem history_renders_reverse_witness :
    show_history 1 ⟨[⟨1, "2024-01-01T09:00:00", "q1", "r1"⟩,
                     ⟨1, "2024-01-02T10:00:00", "q2", "r2"⟩], none⟩
      = [Action.replyMsg "🕓 *09:00*\n👤 You: q1\n🤖 Bot: r1",
         Action.replyMsg "🕓 *10:00*\n👤 You: q2\n🤖 Bot: r2"] := by
  have hth := (history_renders_reverse 1
    ⟨[⟨1, "2024-01-01T09:00:00", "q1", "r1"⟩,
      ⟨1, "2024-01-02T10:00:00", "q2", "r2"⟩], none⟩ (by decide)).1
  rw [hth]
  decide

/-- C9: the `/progress` report over the 7-day window returns the fixed
no-progress message when the user has no records in the window; the
fixed no-topics message when records exist but yield no keyword of at
least 4 lowercase letters; and otherwise renders the at most 5 most
frequent keywords with correct positive counts, ranked by descending
count with ties broken by first occurrence, distinct words, every
unlisted word no more frequent than any listed one, and the word
question pluralized exactly when a count exceeds 1. -/
theorem progress_report (user_id : Nat) (since : String) (st : BotState) :
    (query_since st.store user_id since = [] →
      show_progress user_id since st
        = [Action.replyMsg "😕 No progress to show yet. Start asking questions!"]) ∧
    (query_since st.store user_id since ≠ [] →
      ((query_since st.store user_id since).map topicWords).flatten = [] →
      show_progress user_id since st
        = [Action.replyMsg
            "😅 Couldn\x27t detect topics, but you\x27re asking good questions!"]) ∧
    (∀ kws, kws = ((query_since st.store user_id since).map topicWords).flatten →
      query_since st.store user_id since ≠ [] → kws ≠ [] →
      (show_progress user_id since st
        = [Action.replyMsg
            ("📊 *Your Study Progress (Last 7 Days)*\n\n"
              ++ ((most_common 5 kws).map fun p => progressLine p.1 p.2).foldl (· ++ ·) ""
              ++ "\n✅ Great work! Keep the streak alive.")]) ∧
      (most_common 5 kws).length ≤ 5 ∧
      (∀ p ∈ most_common 5 kws, p.2 = kws.count p.1 ∧ 0 < p.2) ∧
      List.Pairwise (fun a b => b.2 ≤ a.2) (most_common 5 kws) ∧
      List.Pairwise (fun a b => a.2 = b.2 →
        List.indexOf a.1 kws ≤ List.indexOf b.1 kws) (most_common 5 kws) ∧
      ((most_common 5 kws).map Prod.fst).Nodup ∧
      (∀ w ∈ kws, (∀ p ∈ most_common 5 kws, p.1 ≠ w) →
        ∀ p ∈ most_common 5 kws, kws.count w ≤ p.2) ∧
      (∀ p ∈ most_common 5 kws,
        (1 < p.2 → progressLine p.1 p.2
          = "• *" ++ titleWord p.1 ++ "* – " ++ toString p.2 ++ " questions\n") ∧
        (p.2 = 1 → progressLine p.1 p.2
          = "• *" ++ titleWord p.1 ++ "* – " ++ toString p.2 ++ " question\n"))) := by
  refine ⟨?_, ?_, ?_⟩
  · intro h
    simp only [show_progress]
    rw [if_pos h]
  · intro h hkz
    simp only [show_progress]
    rw [if_neg h, if_pos (most_common_eq_nil.mpr hkz)]
  · intro kws hk h hkz
    have hsorted := List.sorted_insertionSort (rankedBefore kws) (countItems kws)
    have hmem_ci : ∀ p ∈ most_common 5 kws, p ∈ countItems kws := by
      intro p hp
      exact (List.mem_insertionSort _).mp (List.mem_of_mem_take hp)
    refine ⟨?_, ?_, ?_, ?_, ?_, ?_, ?_, ?_⟩
    · simp only [show_progress]
      rw [if_neg h, if_neg (fun hc => hkz (most_common_eq_nil.mp (hk ▸ hc)))]
      rw [← hk, report_foldl]
    · rw [most_common, List.length_take]
      exact Nat.min_le_left _ _
    · intro p hp
      exact mem_countItems (hmem_ci p hp)
    · refine List.Pairwise.imp ?_ (hsorted.sublist (List.take_sublist _ _))
      intro a b hab
      rcases hab with h1 | ⟨h1, _⟩
      · exact h1.le
      · exact h1.symm.le
    · refine List.Pairwise.imp ?_ (hsorted.sublist (List.take_sublist _ _))
      intro a b hab
      rcases hab with h1 | ⟨_, h1⟩
      · intro he
        exact absurd (he ▸ h1) (lt_irrefl _)
      · intro _
        exact h1
    · have hperm := List.perm_insertionSort (rankedBefore kws) (countItems kws)
      have hfst : (countItems kws).map Prod.fst = firstKeys kws := by
        rw [countItems, List.map_map]
        rw [show (Prod.fst ∘ fun w : String => (w, kws.count w)) = id from rfl]
        exact List.map_id _
      have hnd : ((List.insertionSort (rankedBefore kws) (countItems kws)).map
          Prod.fst).Nodup := by
        refine ((hperm.map Prod.fst).nodup_iff).mpr ?_
        rw [hfst]
        exact firstKeys_nodup kws
      exact hnd.sublist ((List.take_sublist _ _).map Prod.fst)
    · intro w hw hnotin p hp
      have hwci : (w, kws.count w) ∈ countItems kws := by
        rw [countItems]
        exact List.mem_map.mpr ⟨w, mem_firstKeys_iff.mpr hw, rfl⟩
      have hwsort : (w, kws.count w) ∈
          List.insertionSort (rankedBefore kws) (countItems kws) :=
        (List.mem_insertionSort _).mpr hwci
      rw [← List.take_append_drop 5
        (List.insertionSort (rankedBefore kws) (countItems kws)),
        List.mem_append] at hwsort
      rcases hwsort with hin | hin
      · exact absurd rfl (hnotin _ hin)
      · have hsplit := hsorted
        rw [← List.take_append_drop 5
          (List.insertionSort (rankedBefore kws) (countItems kws))] at hsplit
        have hrel := (List.pairwise_append.mp hsplit).2.2 p hp _ hin
        rcases hrel with h1 | ⟨h1, _⟩
        · exact h1.le
        · exact h1.ge
    · intro p hp
      exact ⟨(progressLine_cases p.1 p.2).1,
        fun h1 => (progressLine_cases p.1 p.2).2 h1.le⟩

/-- Witness for C9: one record in the window; the word what occurs
twice, gravity and else once each, and the report pluralizes only the
first. -/
theorem progress_report_witness :
    show_progress 1 "2024-01-01"
        ⟨[⟨1, "2024-01-02T10:00:00", "What is gravity, what else", "r"⟩], none⟩
      = [Action.replyMsg
          "📊 *Your Study Progress (Last 7 Days)*\n\n• *What* – 2 questions\n• *Gravity* – 1 question\n• *Else* – 1 question\n\n✅ Great work! Keep the streak alive."] := by
  have h := ((progress_report 1 "2024-01-01"
      ⟨[⟨1, "2024-01-02T10:00:00", "What is gravity, what else", "r"⟩], none⟩).2.2
    (((query_since
        [⟨1, "2024-01-02T10:00:00", "What is gravity, what else", "r"⟩]
        1 "2024-01-01").map topicWords).flatten)
    rfl (by decide) (by decide)).1
  rw [h]
  decide

end StudyBot
